import Mathlib

/-!
Verification of the MiniLang compiler front end (lexer, parser, semantic
analyzer) against its natural-language specification.  The definitions below
are a shallow embedding of `src/lexer.py`, `src/parser.py` and
`src/semantic_analyzer.py`: Python exceptions become explicit error values,
the parser object's mutable fields (`pos`, `symbols`) become an explicit
state record that is threaded through, and Python dictionaries become
insertion-ordered association lists.
-/

namespace MiniLang

/-- A lexical token, mirroring `lexer.Token` (NamedTuple with fields
type, value, line, column). -/
structure Token where
  type : String
  value : String
  line : Nat
  column : Nat
deriving DecidableEq

/-- Errors raised from parser code.  `synErr` is `MiniLangSyntaxError`
(message, line, column, line_text; the last three default to Python `None`,
hence `Option`).  `attributeError` models Python raising `AttributeError`
(e.g. reading `.type` on `None`, or calling the nonexistent method
`arguments`); `keyError` models a failing `dict` subscript;
`recursionError` stands for exhausted recursion fuel. -/
inductive PyError where
  | synErr (message : String) (line : Option Nat) (column : Option Nat) (lineText : Option String)
  | attributeError (attr : String)
  | keyError (key : String)
  | recursionError
deriving DecidableEq

/-- Python `repr` of the one-character strings the lexer reports in its
`Unexpected character {value!r}` message: the character wrapped in single
quotes (adequate for every character reachable in the claims). -/
def pyRepr (s : String) : String := "\x27" ++ s ++ "\x27"

/-- Reserved keywords, `lexer.KEYWORDS`.  Note: `bool`, `string`, `true`,
`false`, `void` are NOT in this set in the source. -/
def KEYWORDS : List String := ["fn", "return", "if", "else", "while", "int", "float", "print"]

/-- `str.upper()` for the ASCII keyword lexemes. -/
def pyUpper (s : String) : String := String.mk (s.data.map Char.toUpper)

def openBraceChar : Char := Char.ofNat 123

def closeBraceChar : Char := Char.ofNat 125

/-- Characters of the `OP` rule `[+\-*/=<>!]+`. -/
def opChars : List Char := ['+', '-', '*', '/', '=', '<', '>', '!']

/-- First character of the `IDENT` rule `[A-Za-z_][A-Za-z0-9_]*`. -/
def isIdentStart (c : Char) : Bool := c.isAlpha || c = '_'

/-- Continuation character of the `IDENT` rule. -/
def isIdentCont (c : Char) : Bool := c.isAlpha || c.isDigit || c = '_'

def isSpaceTab (c : Char) : Bool := c = ' ' || c = '\t'

/-- One `finditer` scan of `lexer.token_re` over the remaining characters.
`idx` is the absolute offset of the head character, `lineNum` the current
line, `lineStart` the absolute offset of the current line's first character
(so a token's column is `idx - lineStart`, matching
`mo.start() - line_start`).  The regex alternatives have pairwise-disjoint
first-character sets, so first-match-wins over the alternation equals the
character dispatch below; within a rule the regex match is greedy, i.e. a
maximal run.  Tokens are appended in order, as `tokens.append` does.
Python `\d` is Unicode-aware; `Char.isDigit` coincides with it on the ASCII
sources considered here. -/
def lexGo (fuel : Nat) (cs : List Char) (idx lineNum lineStart : Nat)
    (acc : List Token) : Except String (List Token) :=
  match fuel with
  | 0 => .error "lexer fuel exhausted"
  | f + 1 =>
    match cs with
    | [] => .ok acc
    | c :: rest =>
      if c.isDigit then
        -- NUMBER: \d+(\.\d+)?
        let digits := (c :: rest).takeWhile Char.isDigit
        let rest1 := (c :: rest).dropWhile Char.isDigit
        match rest1 with
        | '.' :: d :: _ =>
          if d.isDigit then
            let frac := (rest1.drop 1).takeWhile Char.isDigit
            let rest2 := (rest1.drop 1).dropWhile Char.isDigit
            let text := String.mk (digits ++ '.' :: frac)
            lexGo f rest2 (idx + digits.length + 1 + frac.length) lineNum lineStart
              (acc ++ [Token.mk "NUMBER" text lineNum (idx - lineStart)])
          else
            lexGo f rest1 (idx + digits.length) lineNum lineStart
              (acc ++ [Token.mk "NUMBER" (String.mk digits) lineNum (idx - lineStart)])
        | _ =>
          lexGo f rest1 (idx + digits.length) lineNum lineStart
            (acc ++ [Token.mk "NUMBER" (String.mk digits) lineNum (idx - lineStart)])
      else if isIdentStart c then
        -- IDENT, reclassified to its uppercased kind when the lexeme is a keyword
        let run := (c :: rest).takeWhile isIdentCont
        let restI := (c :: rest).dropWhile isIdentCont
        let text := String.mk run
        let tok :=
          if text ∈ KEYWORDS then Token.mk (pyUpper text) text lineNum (idx - lineStart)
          else Token.mk "IDENT" text lineNum (idx - lineStart)
        lexGo f restI (idx + run.length) lineNum lineStart (acc ++ [tok])
      else if opChars.contains c then
        -- OP: a maximal run of [+\-*/=<>!]
        let run := (c :: rest).takeWhile (fun x => opChars.contains x)
        let restO := (c :: rest).dropWhile (fun x => opChars.contains x)
        lexGo f restO (idx + run.length) lineNum lineStart
          (acc ++ [Token.mk "OP" (String.mk run) lineNum (idx - lineStart)])
      else if c = '(' then
        lexGo f rest (idx + 1) lineNum lineStart (acc ++ [Token.mk "LPAREN" "(" lineNum (idx - lineStart)])
      else if c = ')' then
        lexGo f rest (idx + 1) lineNum lineStart (acc ++ [Token.mk "RPAREN" ")" lineNum (idx - lineStart)])
      else if c = openBraceChar then
        lexGo f rest (idx + 1) lineNum lineStart (acc ++ [Token.mk "LBRACE" "\x7b" lineNum (idx - lineStart)])
      else if c = closeBraceChar then
        lexGo f rest (idx + 1) lineNum lineStart (acc ++ [Token.mk "RBRACE" "\x7d" lineNum (idx - lineStart)])
      else if c = ':' then
        lexGo f rest (idx + 1) lineNum lineStart (acc ++ [Token.mk "COLON" ":" lineNum (idx - lineStart)])
      else if c = ',' then
        lexGo f rest (idx + 1) lineNum lineStart (acc ++ [Token.mk "COMMA" "," lineNum (idx - lineStart)])
      else if c = ';' then
        lexGo f rest (idx + 1) lineNum lineStart (acc ++ [Token.mk "SEMICOLON" ";" lineNum (idx - lineStart)])
      else if c = '\n' then
        -- NEWLINE: counted, not emitted; line_start = mo.end()
        lexGo f rest (idx + 1) (lineNum + 1) (idx + 1) acc
      else if isSpaceTab c then
        -- SKIP
        let run := (c :: rest).takeWhile isSpaceTab
        let restS := (c :: rest).dropWhile isSpaceTab
        lexGo f restS (idx + run.length) lineNum lineStart acc
      else
        -- MISMATCH: RuntimeError(f"Unexpected character {value!r} at line {line_num}")
        .error ("Unexpected character " ++ pyRepr (String.mk [c]) ++ " at line " ++ toString lineNum)

/-- `lexer.lex`: tokenize MiniLang source code or fail with the
`RuntimeError` message of the `MISMATCH` rule. -/
def lex (code : String) : Except String (List Token) :=
  lexGo (code.data.length + 1) code.data 0 1 0 []

/-! ## AST node definitions (`parser.py`) -/

/-- Expressions: `BinaryOp`, `Number`, `Var`, `StringLiteral`. -/
inductive Expr where
  | BinaryOp (op : String) (left : Expr) (right : Expr)
  | Number (value : String)
  | Var (name : String)
  | StringLiteral (value : String)

/-- Statements.  `pyNone` is the Python `None` that `Parser.statement`
returns when called with no current token; it is unreachable from `block`
(whose loop guard checks `self.current()`) but kept for fidelity. -/
inductive Stmt where
  | VarAssign (name : String) (type_ : Option String) (value : Expr)
  | VarDecl (name : String) (type_ : String)
  | ReturnStmt (value : Option Expr)
  | PrintStmt (value : Expr)
  | IfStmt (condition : Expr) (thenBranch : List Stmt) (elseBranch : Option (List Stmt))
  | WhileStmt (condition : Expr) (body : List Stmt)
  | pyNone

structure Param where
  name : String
  type : String

structure Function where
  name : String
  params : List Param
  returnType : String
  body : List Stmt

structure Program where
  functions : List Function

/-! ## Parser state -/

/-- Python `dict` lookup (`k in d` / `d[k]`) over an insertion-ordered
association list. -/
def dictGet (d : List (String × String)) (k : String) : Option String :=
  match d with
  | [] => none
  | (k1, v) :: rest => if k1 = k then some v else dictGet rest k

/-- Python `dict` update `d[k] = v`: overwrite in place, else append. -/
def dictSet (d : List (String × String)) (k v : String) : List (String × String) :=
  match d with
  | [] => [(k, v)]
  | (k1, v1) :: rest => if k1 = k then (k1, v) :: rest else (k1, v1) :: dictSet rest k v

/-- Python `str.splitlines()` restricted to `\n` separators (the only line
break appearing in the sources considered): no entry for a trailing
newline, and the empty string yields the empty list. -/
def pySplitlinesGo : List Char → List Char → List String
  | [], [] => []
  | [], acc => [String.mk acc.reverse]
  | c :: rest, acc =>
    if c = '\n' then String.mk acc.reverse :: pySplitlinesGo rest []
    else pySplitlinesGo rest (c :: acc)

def pySplitlines (s : String) : List String := pySplitlinesGo s.data []

/-- The mutable fields of the `Parser` object: the token list and source
lines (immutable after `__init__`), the cursor `pos`, and the parse-wide
declared-variable dict `symbols` (never reset between functions). -/
structure ParserState where
  tokens : List Token
  sourceLines : List String
  pos : Nat
  symbols : List (String × String)

/-- `Parser.get_line`. -/
def getLineOf (lines : List String) (lineNum : Nat) : String :=
  if 1 ≤ lineNum ∧ lineNum ≤ lines.length then ((lines.get? (lineNum - 1)).getD "") else ""

def ParserState.getLine (st : ParserState) (lineNum : Nat) : String :=
  getLineOf st.sourceLines lineNum

/-- `Parser.current`. -/
def currentTok (st : ParserState) : Option Token := st.tokens.get? st.pos

/-- `Parser.advance`. -/
def advance (st : ParserState) : ParserState := { st with pos := st.pos + 1 }

/-- `Parser.peek`. -/
def peekTok (st : ParserState) (offset : Nat) : Option Token := st.tokens.get? (st.pos + offset)

/-- `Parser.expect`: consume a token of the given type or raise the
structured `MiniLangSyntaxError` with the offending line's text. -/
def expect (st : ParserState) (type_ : String) : Except PyError (Token × ParserState) :=
  match currentTok st with
  | none =>
    .error (.synErr ("Expected " ++ type_ ++ " but got EOF") none (some 0) (some (st.getLine 1)))
  | some tok =>
    if tok.type = type_ then .ok (tok, advance st)
    else
      .error (.synErr ("Expected " ++ type_ ++ " but got \x27" ++ tok.value ++ "\x27")
        (some tok.line) (some tok.column) (some (st.getLine tok.line)))

/-! ## Expression grammar (`Parser.expression` … `Parser.factor`)

Each `while` loop of the source becomes a fueled tail-recursive helper;
every recursive call decrements the shared fuel, and running out of fuel is
reported as `recursionError` (unreachable for any fuel exceeding the
recursion depth actually used). -/

def cmpOps : List String := ["<", ">", "<=", ">=", "==", "!="]

mutual

/-- `Parser.expression`. -/
def expression (fuel : Nat) (st : ParserState) : Except PyError (Expr × ParserState) :=
  match fuel with
  | 0 => .error .recursionError
  | f + 1 => comparison f st

/-- `Parser.comparison`. -/
def comparison (fuel : Nat) (st : ParserState) : Except PyError (Expr × ParserState) :=
  match fuel with
  | 0 => .error .recursionError
  | f + 1 =>
    match term_expr f st with
    | .error e => .error e
    | .ok (left, st1) => comparisonLoop f left st1

def comparisonLoop (fuel : Nat) (left : Expr) (st : ParserState) :
    Except PyError (Expr × ParserState) :=
  match fuel with
  | 0 => .error .recursionError
  | f + 1 =>
    match currentTok st with
    | some tok =>
      if tok.value ∈ cmpOps then
        match term_expr f (advance st) with
        | .error e => .error e
        | .ok (right, st1) => comparisonLoop f (.BinaryOp tok.value left right) st1
      else .ok (left, st)
    | none => .ok (left, st)

/-- `Parser.term_expr`. -/
def term_expr (fuel : Nat) (st : ParserState) : Except PyError (Expr × ParserState) :=
  match fuel with
  | 0 => .error .recursionError
  | f + 1 =>
    match term f st with
    | .error e => .error e
    | .ok (left, st1) => termExprLoop f left st1

def termExprLoop (fuel : Nat) (left : Expr) (st : ParserState) :
    Except PyError (Expr × ParserState) :=
  match fuel with
  | 0 => .error .recursionError
  | f + 1 =>
    match currentTok st with
    | some tok =>
      if tok.value = "+" ∨ tok.value = "-" then
        match term f (advance st) with
        | .error e => .error e
        | .ok (right, st1) => termExprLoop f (.BinaryOp tok.value left right) st1
      else .ok (left, st)
    | none => .ok (left, st)

/-- `Parser.term`. -/
def term (fuel : Nat) (st : ParserState) : Except PyError (Expr × ParserState) :=
  match fuel with
  | 0 => .error .recursionError
  | f + 1 =>
    match factor f st with
    | .error e => .error e
    | .ok (left, st1) => termLoop f left st1

def termLoop (fuel : Nat) (left : Expr) (st : ParserState) :
    Except PyError (Expr × ParserState) :=
  match fuel with
  | 0 => .error .recursionError
  | f + 1 =>
    match currentTok st with
    | some tok =>
      if tok.value = "*" ∨ tok.value = "/" then
        match factor f (advance st) with
        | .error e => .error e
        | .ok (right, st1) => termLoop f (.BinaryOp tok.value left right) st1
      else .ok (left, st)
    | none => .ok (left, st)

/-- `Parser.factor`.  The source reads `tok.type` before any `None` check,
so end of input here is an `AttributeError`, not a syntax diagnostic. -/
def factor (fuel : Nat) (st : ParserState) : Except PyError (Expr × ParserState) :=
  match fuel with
  | 0 => .error .recursionError
  | f + 1 =>
    match currentTok st with
    | none => .error (.attributeError "type")
    | some tok =>
      if tok.type = "NUMBER" then .ok (.Number tok.value, advance st)
      else if tok.type = "STRING" then .ok (.StringLiteral tok.value, advance st)
      else if tok.type = "IDENT" then .ok (.Var tok.value, advance st)
      else if tok.type = "LPAREN" then
        match expression f (advance st) with
        | .error e => .error e
        | .ok (e, st1) =>
          match expect st1 "RPAREN" with
          | .error er => .error er
          | .ok (_, st2) => .ok (e, st2)
      else
        .error (.synErr ("Unexpected token in expression: \x27" ++ tok.value ++ "\x27")
          (some tok.line) (some tok.column) (some (st.getLine tok.line)))

end

/-! ## Statement grammar

`Parser.var_assign_or_call` is split into its three source sections:
`vacDecl` is "Case 1: optional declaration" (it may early-return a pure
`VarDecl`, signalled with `Sum.inl`), and `vacTail` is Cases 2-4. -/

def declTypeKinds : List String := ["INT", "FLOAT", "BOOL", "STRING"]

/-- `self.symbols[name] = var_type`: register a declared variable. -/
def registerSym (st : ParserState) (name v : String) : ParserState :=
  { st with symbols := dictSet st.symbols name v }

/-- Case 1 of `Parser.var_assign_or_call`: the optional `: type` part.
`inl` is the early `return VarDecl(...)` for `z: int;`; `inr` carries
`var_type` on to the assignment/call cases.  Reading `type_tok.type` when
the input ends right after the colon is an `AttributeError`. -/
def vacDecl (name : String) (st : ParserState) :
    Except PyError (Sum (Stmt × ParserState) (Option String × ParserState)) :=
  match currentTok st with
  | some t =>
    if t.type = "COLON" then
      match currentTok (advance st) with
      | none => .error (.attributeError "type")
      | some typeTok =>
        if typeTok.type ∈ declTypeKinds then
          match currentTok (registerSym (advance (advance st)) name typeTok.value) with
          | some u =>
            if u.type = "SEMICOLON" then
              .ok (.inl (.VarDecl name typeTok.value,
                advance (registerSym (advance (advance st)) name typeTok.value)))
            else .ok (.inr (some typeTok.value, registerSym (advance (advance st)) name typeTok.value))
          | none => .ok (.inr (some typeTok.value, registerSym (advance (advance st)) name typeTok.value))
        else .error (.synErr ("Invalid type: " ++ typeTok.value) none none none)
    else .ok (.inr (none, st))
  | none => .ok (.inr (none, st))

/-- Cases 2-4 of `Parser.var_assign_or_call`.  Case 3 evaluates
`self.arguments()`, but `Parser` defines no method `arguments` (and
`FunctionCall` is an undefined name), so Python raises `AttributeError`
before anything else happens in that case. -/
def vacTail (fuel : Nat) (nameTok : Token) (varType : Option String) (st : ParserState) :
    Except PyError (Stmt × ParserState) :=
  match currentTok st with
  | some t =>
    if t.type = "OP" ∧ t.value = "=" then
      -- Case 2: assignment (must be declared)
      if varType = none ∧ dictGet st.symbols nameTok.value = none then
        .error (.synErr ("Variable \x27" ++ nameTok.value ++ "\x27 is not declared before assignment")
          (some nameTok.line) (some nameTok.column) (some (st.getLine nameTok.line)))
      else
        match expression fuel (advance st) with
        | .error e => .error e
        | .ok (value, st1) =>
          match expect st1 "SEMICOLON" with
          | .error e => .error e
          | .ok (_, st2) =>
            match varType with
            | some vt => .ok (.VarAssign nameTok.value (some vt) value, st2)
            | none =>
              -- var_type = self.symbols[name] (guarded above, so present)
              match dictGet st2.symbols nameTok.value with
              | some vt => .ok (.VarAssign nameTok.value (some vt) value, st2)
              | none => .error (.keyError nameTok.value)
    else if t.type = "LPAREN" then
      -- Case 3: function call: args = self.arguments() -> AttributeError
      .error (.attributeError "arguments")
    else
      -- Case 4: declaration only
      match varType with
      | some vt =>
        match expect st "SEMICOLON" with
        | .error e => .error e
        | .ok (_, st1) => .ok (.VarDecl nameTok.value vt, st1)
      | none =>
        .error (.synErr ("Unexpected token after identifier \x27" ++ nameTok.value ++ "\x27") none none none)
  | none =>
    match varType with
    | some vt =>
      match expect st "SEMICOLON" with
      | .error e => .error e
      | .ok (_, st1) => .ok (.VarDecl nameTok.value vt, st1)
    | none =>
      .error (.synErr ("Unexpected token after identifier \x27" ++ nameTok.value ++ "\x27") none none none)

mutual

/-- `Parser.statement`: dispatch on the current token.  With no current
token the source returns Python `None` (here `Stmt.pyNone`); unreachable
from `block`, whose loop guard checks `current()`. -/
def statement (fuel : Nat) (st : ParserState) : Except PyError (Stmt × ParserState) :=
  match fuel with
  | 0 => .error .recursionError
  | f + 1 =>
    match currentTok st with
    | none => .ok (.pyNone, st)
    | some tok =>
      if tok.type = "RETURN" then return_stmt f st
      else if tok.type = "PRINT" then print_stmt f st
      else if tok.type = "IF" then if_stmt f st
      else if tok.type = "WHILE" then while_stmt f st
      else if tok.type = "IDENT" then
        match peekTok st 1 with
        | some nextTok =>
          if nextTok.type = "COLON" ∨ nextTok.type = "OP" ∨ nextTok.type = "LPAREN" then
            var_assign_or_call f st
          else .error (.synErr ("Unexpected token " ++ tok.value) none none none)
        | none => .error (.synErr ("Unexpected token " ++ tok.value) none none none)
      else
        .error (.synErr ("Unexpected statement start: \x27" ++ tok.value ++ "\x27")
          (some tok.line) (some tok.column) (some (st.getLine tok.line)))

/-- The `while` loop of `Parser.block`. -/
def blockLoop (fuel : Nat) (acc : List Stmt) (st : ParserState) :
    Except PyError (List Stmt × ParserState) :=
  match fuel with
  | 0 => .error .recursionError
  | f + 1 =>
    match currentTok st with
    | some t =>
      if t.type = "RBRACE" then .ok (acc, st)
      else
        match statement f st with
        | .error e => .error e
        | .ok (s, st1) => blockLoop f (acc ++ [s]) st1
    | none => .ok (acc, st)

/-- `Parser.block`. -/
def block (fuel : Nat) (st : ParserState) : Except PyError (List Stmt × ParserState) :=
  match fuel with
  | 0 => .error .recursionError
  | f + 1 =>
    match expect st "LBRACE" with
    | .error e => .error e
    | .ok (_, st1) =>
      match blockLoop f [] st1 with
      | .error e => .error e
      | .ok (stmts, st2) =>
        match expect st2 "RBRACE" with
        | .error e => .error e
        | .ok (_, st3) => .ok (stmts, st3)

/-- `Parser.return_stmt`: allows both `return;` and `return expr;`. -/
def return_stmt (fuel : Nat) (st : ParserState) : Except PyError (Stmt × ParserState) :=
  match fuel with
  | 0 => .error .recursionError
  | f + 1 =>
    match expect st "RETURN" with
    | .error e => .error e
    | .ok (_, st1) =>
      match currentTok st1 with
      | some t =>
        if t.type = "SEMICOLON" then
          match expect st1 "SEMICOLON" with
          | .error e => .error e
          | .ok (_, st2) => .ok (.ReturnStmt none, st2)
        else
          match expression f st1 with
          | .error e => .error e
          | .ok (v, st2) =>
            match expect st2 "SEMICOLON" with
            | .error e => .error e
            | .ok (_, st3) => .ok (.ReturnStmt (some v), st3)
      | none =>
        match expect st1 "SEMICOLON" with
        | .error e => .error e
        | .ok (_, st2) => .ok (.ReturnStmt none, st2)

/-- `Parser.print_stmt`. -/
def print_stmt (fuel : Nat) (st : ParserState) : Except PyError (Stmt × ParserState) :=
  match fuel with
  | 0 => .error .recursionError
  | f + 1 =>
    match expect st "PRINT" with
    | .error e => .error e
    | .ok (_, st1) =>
      match expect st1 "LPAREN" with
      | .error e => .error e
      | .ok (_, st2) =>
        match expression f st2 with
        | .error e => .error e
        | .ok (v, st3) =>
          match expect st3 "RPAREN" with
          | .error e => .error e
          | .ok (_, st4) =>
            match expect st4 "SEMICOLON" with
            | .error e => .error e
            | .ok (_, st5) => .ok (.PrintStmt v, st5)

/-- `Parser.if_stmt`. -/
def if_stmt (fuel : Nat) (st : ParserState) : Except PyError (Stmt × ParserState) :=
  match fuel with
  | 0 => .error .recursionError
  | f + 1 =>
    match expect st "IF" with
    | .error e => .error e
    | .ok (_, st1) =>
      match expect st1 "LPAREN" with
      | .error e => .error e
      | .ok (_, st2) =>
        match expression f st2 with
        | .error e => .error e
        | .ok (cond, st3) =>
          match expect st3 "RPAREN" with
          | .error e => .error e
          | .ok (_, st4) =>
            match block f st4 with
            | .error e => .error e
            | .ok (thenB, st5) =>
              match currentTok st5 with
              | some t =>
                if t.type = "ELSE" then
                  match block f (advance st5) with
                  | .error e => .error e
                  | .ok (elseB, st6) => .ok (.IfStmt cond thenB (some elseB), st6)
                else .ok (.IfStmt cond thenB none, st5)
              | none => .ok (.IfStmt cond thenB none, st5)

/-- `Parser.while_stmt`. -/
def while_stmt (fuel : Nat) (st : ParserState) : Except PyError (Stmt × ParserState) :=
  match fuel with
  | 0 => .error .recursionError
  | f + 1 =>
    match expect st "WHILE" with
    | .error e => .error e
    | .ok (_, st1) =>
      match expect st1 "LPAREN" with
      | .error e => .error e
      | .ok (_, st2) =>
        match expression f st2 with
        | .error e => .error e
        | .ok (cond, st3) =>
          match expect st3 "RPAREN" with
          | .error e => .error e
          | .ok (_, st4) =>
            match block f st4 with
            | .error e => .error e
            | .ok (body, st5) => .ok (.WhileStmt cond body, st5)

/-- `Parser.var_assign_or_call`. -/
def var_assign_or_call (fuel : Nat) (st : ParserState) : Except PyError (Stmt × ParserState) :=
  match fuel with
  | 0 => .error .recursionError
  | f + 1 =>
    match expect st "IDENT" with
    | .error e => .error e
    | .ok (nameTok, st1) =>
      match vacDecl nameTok.value st1 with
      | .error e => .error e
      | .ok (.inl r) => .ok r
      | .ok (.inr (varType, st2)) => vacTail f nameTok varType st2

end

/-! ## Functions and top-level parse -/

def retTypeKinds : List String := ["INT", "FLOAT", "BOOL", "STRING", "VOID"]

/-- The `while True` loop of `Parser.params`.  Note the type position uses
`expect("IDENT")`, and that after a parameter the source reads
`self.current().type` without a `None` check. -/
def paramsFn (fuel : Nat) (acc : List Param) (st : ParserState) :
    Except PyError (List Param × ParserState) :=
  match fuel with
  | 0 => .error .recursionError
  | f + 1 =>
    match expect st "IDENT" with
    | .error e => .error e
    | .ok (nameTok, st1) =>
      match expect st1 "COLON" with
      | .error e => .error e
      | .ok (_, st2) =>
        match expect st2 "IDENT" with
        | .error e => .error e
        | .ok (typeTok, st3) =>
          let acc1 := acc ++ [Param.mk nameTok.value typeTok.value]
          match currentTok st3 with
          | none => .error (.attributeError "type")
          | some t =>
            if t.type = "COMMA" then paramsFn f acc1 (advance st3)
            else .ok (acc1, st3)

/-- The optional `: type` return-type section of `Parser.function`. -/
def returnTypeSection (st : ParserState) : Except PyError (String × ParserState) :=
  match currentTok st with
  | some c =>
    if c.type = "COLON" then
      let st1 := advance st
      match currentTok st1 with
      | none =>
        .error (.synErr "Unexpected end of input after \x27:\x27 (expected return type)" none none none)
      | some tok =>
        if tok.type ∈ retTypeKinds then .ok (tok.value, advance st1)
        else if tok.type = "IDENT" then .ok (tok.value, advance st1)
        else
          .error (.synErr ("Expected type name but got \x27" ++ tok.value ++ "\x27")
            (some tok.line) (some tok.column) (some (st1.getLine tok.line)))
    else .ok ("void", st)
  | none => .ok ("void", st)

/-- The tail of `Parser.function` after the parameter list: `expect(RPAREN)`,
the optional return type, and the body block. -/
def functionTail (fuel : Nat) (nameTok : Token) (ps : List Param) (st : ParserState) :
    Except PyError (Function × ParserState) :=
  match expect st "RPAREN" with
  | .error e => .error e
  | .ok (_, st5) =>
    match returnTypeSection st5 with
    | .error e => .error e
    | .ok (retType, st6) =>
      match block fuel st6 with
      | .error e => .error e
      | .ok (body, st7) => .ok (Function.mk nameTok.value ps retType body, st7)

/-- `Parser.function`. -/
def functionFn (fuel : Nat) (st : ParserState) : Except PyError (Function × ParserState) :=
  match fuel with
  | 0 => .error .recursionError
  | f + 1 =>
    match expect st "FN" with
    | .error e => .error e
    | .ok (_, st1) =>
      match expect st1 "IDENT" with
      | .error e => .error e
      | .ok (nameTok, st2) =>
        match expect st2 "LPAREN" with
        | .error e => .error e
        | .ok (_, st3) =>
          match currentTok st3 with
          | none => .error (.synErr "Unexpected end of input while parsing parameters" none none none)
          | some t =>
            if t.type = "RPAREN" then functionTail f nameTok [] st3
            else
              match paramsFn f [] st3 with
              | .error e => .error e
              | .ok (ps, st4) => functionTail f nameTok ps st4

/-- The `while self.current()` loop of `Parser.parse`. -/
def parseLoop (fuel : Nat) (acc : List Function) (st : ParserState) :
    Except PyError (Program × ParserState) :=
  match fuel with
  | 0 => .error .recursionError
  | f + 1 =>
    match currentTok st with
    | none => .ok (Program.mk acc, st)
    | some _ =>
      match functionFn f st with
      | .error e => .error e
      | .ok (fn, st1) => parseLoop f (acc ++ [fn]) st1

/-- `Parser(tokens, source)` followed by `parse()`, with explicit fuel. -/
def parseWithFuel (fuel : Nat) (tokens : List Token) (source : String) : Except PyError Program :=
  match parseLoop fuel [] (ParserState.mk tokens (pySplitlines source) 0 []) with
  | .error e => .error e
  | .ok (prog, _) => .ok prog

/-- A fuel bound amply exceeding any recursion depth reachable while
consuming the given tokens. -/
def enoughFuel (tokens : List Token) : Nat := 20 * tokens.length + 20

/-- One diagnostic type for the whole pipeline (`LexError` / parser
exceptions / `SemanticError`). -/
inductive CompileError where
  | lexErr (message : String)
  | parseErr (e : PyError)
  | semErr (message : String)

/-- Lex then parse, as `main.run_code` does before semantic analysis. -/
def lexParse (source : String) : Except CompileError Program :=
  match lex source with
  | .error msg => .error (.lexErr msg)
  | .ok tokens =>
    match parseWithFuel (enoughFuel tokens) tokens source with
    | .error e => .error (.parseErr e)
    | .ok prog => .ok prog

/-! ## Semantic analyzer (`semantic_analyzer.py`)

`SemanticError` carries only a message, so it is embedded as the message
string.  `SymbolTable` methods that mutate `self.symbols` return the new
table; `visit_stmt` returns the scope resulting from the statement (the
source mutates the single scope object in place, which is the same thing
once the scope is threaded sequentially). -/

/-- `SymbolTable`: keeps track of variable declarations and types. -/
structure SymbolTable where
  symbols : List (String × String)

/-- `SymbolTable.declare`. -/
def SymbolTable.declare (tbl : SymbolTable) (name type_ : String) :
    Except String SymbolTable :=
  match dictGet tbl.symbols name with
  | some _ => .error ("Variable \x27" ++ name ++ "\x27 already declared.")
  | none => .ok (SymbolTable.mk (dictSet tbl.symbols name type_))

/-- `SymbolTable.assign`: checks only; the recorded type is not updated. -/
def SymbolTable.assign (tbl : SymbolTable) (name type_ : String) :
    Except String Unit :=
  match dictGet tbl.symbols name with
  | none => .error ("Variable \x27" ++ name ++ "\x27 not declared.")
  | some t =>
    if t ≠ type_ then
      .error ("Type mismatch in assignment to \x27" ++ name ++ "\x27. Expected \x27" ++ t
        ++ "\x27, got \x27" ++ type_ ++ "\x27")
    else .ok ()

/-- `SymbolTable.lookup`. -/
def SymbolTable.lookup (tbl : SymbolTable) (name : String) : Except String String :=
  match dictGet tbl.symbols name with
  | none => .error ("Variable \x27" ++ name ++ "\x27 not declared.")
  | some t => .ok t

/-- Python truthiness of the `Optional[str]` field `stmt.type_`
(`if stmt.type_:`): `None` and the empty string are falsy. -/
def pyTruthyStr (o : Option String) : Bool :=
  match o with
  | none => false
  | some s => !(s = "")

def arithOps : List String := ["+", "-", "*", "/"]

/-- `SemanticAnalyzer.visit_expr`: compute an expression's type. -/
def visit_expr (e : Expr) (scope : SymbolTable) : Except String String :=
  match e with
  | .Number _ => .ok "int"
  | .StringLiteral _ => .ok "string"
  | .Var name => scope.lookup name
  | .BinaryOp op left right =>
    match visit_expr left scope with
    | .error er => .error er
    | .ok leftType =>
      match visit_expr right scope with
      | .error er => .error er
      | .ok rightType =>
        if op ∈ arithOps then
          if leftType ≠ "int" ∨ rightType ≠ "int" then
            .error ("Arithmetic operation requires int operands, got " ++ leftType
              ++ " and " ++ rightType)
          else .ok "int"
        else if op ∈ cmpOps then
          if leftType ≠ rightType then
            .error ("Comparison operands must match, got " ++ leftType ++ " and " ++ rightType)
          else .ok "bool"
        else .error ("Unsupported operator: " ++ op)

mutual

/-- `SemanticAnalyzer.visit_stmt`.  `Stmt.pyNone` falls into the source's
final `else` (`Unknown statement type`). -/
def visit_stmt (stmt : Stmt) (scope : SymbolTable) (expectedReturn : String) :
    Except String SymbolTable :=
  match stmt with
  | .VarAssign name type_ value =>
    match visit_expr value scope with
    | .error er => .error er
    | .ok valType =>
      if pyTruthyStr type_ then
        match dictGet scope.symbols name with
        | none =>
          -- First declaration with optional initialization: the computed
          -- value type is NOT compared against the declared type here.
          scope.declare name (type_.getD "")
        | some _ =>
          -- Already declared: just an assignment
          match scope.assign name valType with
          | .error er => .error er
          | .ok _ => .ok scope
      else
        match dictGet scope.symbols name with
        | none => .error ("Variable \x27" ++ name ++ "\x27 not declared")
        | some _ =>
          match scope.assign name valType with
          | .error er => .error er
          | .ok _ => .ok scope
  | .VarDecl name type_ => scope.declare name type_
  | .ReturnStmt value =>
    match value with
    | some v =>
      match visit_expr v scope with
      | .error er => .error er
      | .ok valType =>
        if expectedReturn ≠ "void" ∧ valType ≠ expectedReturn then
          .error ("Return type mismatch: expected \x27" ++ expectedReturn ++ "\x27, got \x27"
            ++ valType ++ "\x27")
        else .ok scope
    | none =>
      if expectedReturn ≠ "void" then
        .error ("Return statement missing value (expected " ++ expectedReturn ++ ")")
      else .ok scope
  | .PrintStmt v =>
    match visit_expr v scope with
    | .error er => .error er
    | .ok _ => .ok scope
  | .IfStmt cond thenB elseB =>
    match visit_expr cond scope with
    | .error er => .error er
    | .ok condType =>
      if condType ≠ "bool" ∧ condType ≠ "int" then
        .error "Condition in if-statement must be bool or int"
      else
        match visit_stmts thenB scope expectedReturn with
        | .error er => .error er
        | .ok scope1 => visit_elseBranch elseB scope1 expectedReturn
  | .WhileStmt cond body =>
    match visit_expr cond scope with
    | .error er => .error er
    | .ok condType =>
      if condType ≠ "bool" ∧ condType ≠ "int" then
        .error "Condition in while-statement must be bool or int"
      else visit_stmts body scope expectedReturn
  | .pyNone => .error "Unknown statement type: None"

/-- The `if stmt.else_branch:` walk of the else body.  (For an empty else
list Python truthiness skips the walk; visiting an empty list is the
identity, so the two coincide.) -/
def visit_elseBranch (elseB : Option (List Stmt)) (scope : SymbolTable)
    (expectedReturn : String) : Except String SymbolTable :=
  match elseB with
  | some es => visit_stmts es scope expectedReturn
  | none => .ok scope

/-- The `for s in ...: self.visit_stmt(s, scope, ...)` loops, threading the
one shared scope through the statements in order. -/
def visit_stmts (stmts : List Stmt) (scope : SymbolTable) (expectedReturn : String) :
    Except String SymbolTable :=
  match stmts with
  | [] => .ok scope
  | s :: rest =>
    match visit_stmt s scope expectedReturn with
    | .error er => .error er
    | .ok scope1 => visit_stmts rest scope1 expectedReturn

end

/-- The parameter-declaration loop of `SemanticAnalyzer.visit_function`. -/
def declareParams (ps : List Param) (scope : SymbolTable) : Except String SymbolTable :=
  match ps with
  | [] => .ok scope
  | p :: rest =>
    match scope.declare p.name p.type with
    | .error er => .error er
    | .ok scope1 => declareParams rest scope1

/-- `SemanticAnalyzer.visit_function`: a fresh local scope, parameters
declared into it, then the body statements in order.  (The source's
`print(f"Analyzing function: ...")` is console output with no effect on
the result.) -/
def visit_function (func : Function) : Except String Unit :=
  match declareParams func.params (SymbolTable.mk []) with
  | .error er => .error er
  | .ok scope =>
    match visit_stmts func.body scope func.returnType with
    | .error er => .error er
    | .ok _ => .ok ()

/-- The `for func in self.ast.functions` loop of `SemanticAnalyzer.analyze`. -/
def visitFunctions (funcs : List Function) : Except String Unit :=
  match funcs with
  | [] => .ok ()
  | f :: rest =>
    match visit_function f with
    | .error er => .error er
    | .ok _ => visitFunctions rest

/-- `SemanticAnalyzer(ast).analyze()`. -/
def analyze (prog : Program) : Except String Unit := visitFunctions prog.functions

/-- The full front-end pipeline of `main.run_code` up to and including
semantic analysis: lex, parse, analyze. -/
def lexParseAnalyze (source : String) : Except CompileError Unit :=
  match lexParse source with
  | .error e => .error e
  | .ok prog =>
    match analyze prog with
    | .error msg => .error (.semErr msg)
    | .ok _ => .ok ()

/-! ## The declared-type invariant of parser-produced `VarAssign` nodes -/

mutual

/-- Every `VarAssign` in the statement (including inside `if`/`while`
bodies) carries a present `type_` field. -/
def stmtTyped : Stmt → Bool
  | .VarAssign _ type_ _ => type_.isSome
  | .VarDecl _ _ => true
  | .ReturnStmt _ => true
  | .PrintStmt _ => true
  | .IfStmt _ thenB elseB => stmtsTyped thenB && elseTyped elseB
  | .WhileStmt _ body => stmtsTyped body
  | .pyNone => true

def elseTyped : Option (List Stmt) → Bool
  | some es => stmtsTyped es
  | none => true

def stmtsTyped : List Stmt → Bool
  | [] => true
  | s :: rest => stmtTyped s && stmtsTyped rest

end

/-- Every `VarAssign` node anywhere in the program has a present
declared-type field. -/
def progTyped (p : Program) : Prop := ∀ f ∈ p.functions, stmtsTyped f.body = true

/-! ## Helper lemmas -/

theorem stmtsTyped_nil : stmtsTyped [] = true := rfl

theorem stmtsTyped_append (a : List Stmt) (s : Stmt) :
    stmtsTyped (a ++ [s]) = (stmtsTyped a && stmtTyped s) := by
  induction a with
  | nil => simp [stmtsTyped]
  | cons x rest ih => simp [stmtsTyped, ih, Bool.and_assoc]

theorem vacDecl_typed (name : String) (st : ParserState) (s : Stmt) (st1 : ParserState)
    (h : vacDecl name st = .ok (.inl (s, st1))) : stmtTyped s = true := by
  unfold vacDecl at h
  repeat' split at h
  any_goals exact Except.noConfusion h
  all_goals
    injection h with h1
    first
    | exact Sum.noConfusion h1
    | (injection h1 with h2
       injection h2 with hs hst
       subst hs
       simp [stmtTyped])

theorem vacTail_typed (f : Nat) (nt : Token) (vt : Option String) (st : ParserState)
    (s : Stmt) (st1 : ParserState) (h : vacTail f nt vt st = .ok (s, st1)) :
    stmtTyped s = true := by
  unfold vacTail at h
  repeat' split at h
  any_goals exact Except.noConfusion h
  all_goals
    injection h with h1
    injection h1 with hs hst
    subst hs
    simp [stmtTyped]

theorem var_assign_or_call_typed (f : Nat) (st : ParserState) (s : Stmt) (st1 : ParserState)
    (h : var_assign_or_call f st = .ok (s, st1)) : stmtTyped s = true := by
  cases f with
  | zero => simp [var_assign_or_call] at h
  | succ g =>
    unfold var_assign_or_call at h
    repeat' split at h
    any_goals exact Except.noConfusion h
    · injection h with h1
      subst h1
      solve_by_elim [vacDecl_typed]
    · solve_by_elim [vacTail_typed]

theorem return_stmt_typed (f : Nat) (st : ParserState) (s : Stmt) (st1 : ParserState)
    (h : return_stmt f st = .ok (s, st1)) : stmtTyped s = true := by
  cases f with
  | zero => simp [return_stmt] at h
  | succ g =>
    unfold return_stmt at h
    repeat' split at h
    any_goals exact Except.noConfusion h
    all_goals
      injection h with h1
      injection h1 with hs hst
      subst hs
      simp [stmtTyped]

theorem print_stmt_typed (f : Nat) (st : ParserState) (s : Stmt) (st1 : ParserState)
    (h : print_stmt f st = .ok (s, st1)) : stmtTyped s = true := by
  cases f with
  | zero => simp [print_stmt] at h
  | succ g =>
    unfold print_stmt at h
    repeat' split at h
    any_goals exact Except.noConfusion h
    all_goals
      injection h with h1
      injection h1 with hs hst
      subst hs
      simp [stmtTyped]

/-- Joint fuel induction: every statement produced by the statement-level
parsing functions satisfies the declared-type predicate. -/
theorem stmtFamily_typed : ∀ fuel : Nat,
    (∀ st s st1, statement fuel st = .ok (s, st1) → stmtTyped s = true) ∧
    (∀ acc st l st1, blockLoop fuel acc st = .ok (l, st1) →
      stmtsTyped acc = true → stmtsTyped l = true) ∧
    (∀ st l st1, block fuel st = .ok (l, st1) → stmtsTyped l = true) ∧
    (∀ st s st1, if_stmt fuel st = .ok (s, st1) → stmtTyped s = true) ∧
    (∀ st s st1, while_stmt fuel st = .ok (s, st1) → stmtTyped s = true) := by
  intro fuel
  induction fuel with
  | zero =>
    refine ⟨fun st s st1 h => ?_, fun acc st l st1 h hacc => ?_, fun st l st1 h => ?_,
            fun st s st1 h => ?_, fun st s st1 h => ?_⟩
    · simp [statement] at h
    · simp [blockLoop] at h
    · simp [block] at h
    · simp [if_stmt] at h
    · simp [while_stmt] at h
  | succ f ih =>
    obtain ⟨ihStatement, ihLoop, ihBlock, ihIf, ihWhile⟩ := ih
    refine ⟨fun st s st1 h => ?_, fun acc st l st1 h hacc => ?_, fun st l st1 h => ?_,
            fun st s st1 h => ?_, fun st s st1 h => ?_⟩
    · unfold statement at h
      repeat' split at h
      any_goals exact Except.noConfusion h
      all_goals first
        | (injection h with h1; injection h1 with hs hst; subst hs; simp [stmtTyped])
        | solve_by_elim [return_stmt_typed, print_stmt_typed, var_assign_or_call_typed,
            ihIf, ihWhile]
    · unfold blockLoop at h
      repeat' split at h
      any_goals exact Except.noConfusion h
      all_goals first
        | (injection h with h1; injection h1 with hl hst; subst hl; exact hacc)
        | (refine ihLoop _ _ _ _ h ?_
           rw [stmtsTyped_append, hacc, Bool.true_and]
           solve_by_elim [ihStatement])
    · unfold block at h
      repeat' split at h
      any_goals exact Except.noConfusion h
      all_goals
        injection h with h1
        injection h1 with hl hst
        subst hl
        solve_by_elim [ihLoop, stmtsTyped_nil]
    · unfold if_stmt at h
      repeat' split at h
      any_goals exact Except.noConfusion h
      all_goals
        injection h with h1
        injection h1 with hs hst
        subst hs
        simp only [stmtTyped, elseTyped, Bool.and_eq_true, Bool.and_true]
      all_goals first
        | (constructor <;> solve_by_elim [ihBlock])
        | solve_by_elim [ihBlock]
    · unfold while_stmt at h
      repeat' split at h
      any_goals exact Except.noConfusion h
      all_goals
        injection h with h1
        injection h1 with hs hst
        subst hs
        simp only [stmtTyped]
        solve_by_elim [ihBlock]

theorem block_typed (f : Nat) (st : ParserState) (l : List Stmt) (st1 : ParserState)
    (h : block f st = .ok (l, st1)) : stmtsTyped l = true :=
  (stmtFamily_typed f).2.2.1 st l st1 h

theorem functionTail_typed (f : Nat) (nt : Token) (ps : List Param) (st : ParserState)
    (fn : Function) (st1 : ParserState) (h : functionTail f nt ps st = .ok (fn, st1)) :
    stmtsTyped fn.body = true := by
  unfold functionTail at h
  repeat' split at h
  any_goals exact Except.noConfusion h
  all_goals
    injection h with h1
    injection h1 with hf hst
    subst hf
    solve_by_elim [block_typed]

theorem functionFn_typed (f : Nat) (st : ParserState) (fn : Function) (st1 : ParserState)
    (h : functionFn f st = .ok (fn, st1)) : stmtsTyped fn.body = true := by
  cases f with
  | zero => simp [functionFn] at h
  | succ g =>
    unfold functionFn at h
    repeat' split at h
    any_goals exact Except.noConfusion h
    all_goals solve_by_elim [functionTail_typed]

theorem parseLoop_typed : ∀ fuel acc st prog st1, parseLoop fuel acc st = .ok (prog, st1) →
    (∀ g ∈ acc, stmtsTyped g.body = true) → progTyped prog := by
  intro fuel
  induction fuel with
  | zero => intro acc st prog st1 h hacc; simp [parseLoop] at h
  | succ f ih =>
    intro acc st prog st1 h hacc
    unfold parseLoop at h
    repeat' split at h
    any_goals exact Except.noConfusion h
    · injection h with h1
      injection h1 with hp hst
      subst hp
      exact hacc
    · refine ih _ _ _ _ h ?_
      intro g hg
      rcases List.mem_append.mp hg with hin | hone
      · exact hacc g hin
      · rcases List.mem_singleton.mp hone with rfl
        solve_by_elim [functionFn_typed]

/-! ## Claim theorems -/

/-- Claim C1: the spec asserts that `fn f(a: int, b: int): int ...` parses
with the two typed parameters recorded and then analyzes successfully.  The
code instead rejects it: `Parser.params` demands an `IDENT` token in the
type position, but `int` is lexed as the `INT` keyword, so parsing Scenario
4 fails with `Expected IDENT but got 'int'` at the first parameter type.
(The parser accepts keyword type tokens for return types and local
declarations, so this inconsistency is a slip in `params`.) -/
theorem mini_c1_scenario4_rejected :
    lexParse "fn f(a: int, b: int): int \x7b return a + b; \x7d" =
      .error (.parseErr (.synErr "Expected IDENT but got \x27int\x27" (some 1) (some 8)
        (some "fn f(a: int, b: int): int \x7b return a + b; \x7d"))) := rfl

/-- Claim C2: the spec asserts that a double-quoted string literal is lexed
as a single string token with the quotes stripped.  The code has no string
rule in `TOKEN_SPEC`, so the opening quote falls through to `MISMATCH` and
the lexer raises `RuntimeError` instead (this also breaks the semantic
analyzer module, whose own `__main__` test program contains `"hi"`). -/
theorem mini_c2_string_rejected :
    lex "y: string = \"hi\";" = .error "Unexpected character \x27\"\x27 at line 1" := rfl

/-- Claim C3: the spec asserts that a statement `IDENT '(' args ')' ';'`
parses into a call-statement node.  The code path for Case 3 of
`var_assign_or_call` calls `self.arguments()`, but `Parser` defines no such
method (and the node class `FunctionCall` is likewise undefined), so Python
raises `AttributeError` for every call statement. -/
theorem mini_c3_call_attribute_error :
    lexParse "fn main() \x7b foo(); \x7d" = .error (.parseErr (.attributeError "arguments")) := rfl

/-- Claim C4 counterexample: a token sequence that ends in the middle of an
expression does NOT fail with the structured syntax diagnostic; `factor`
reads `tok.type` on `None` and raises `AttributeError`, refuting the claim
that unexpected end-of-input always raises the structured `SyntaxError`. -/
theorem mini_c4_counterexample :
    lexParse "fn f() \x7b return 1 +" = .error (.parseErr (.attributeError "type")) := rfl

/-- Claim C4 (amended): token mismatches detected through `Parser.expect`
do raise the structured `MiniLangSyntaxError` carrying the offending
token's line, column and source line text; but end of input inside an
expression (`Parser.factor`) raises an unstructured `AttributeError`
instead, and the `Invalid type` rejection in `var_assign_or_call` raises a
`MiniLangSyntaxError` with no position or line text attached. -/
theorem mini_c4_amended :
    (∀ st type_ tok, currentTok st = some tok → tok.type ≠ type_ →
      expect st type_ =
        .error (.synErr ("Expected " ++ type_ ++ " but got \x27" ++ tok.value ++ "\x27")
          (some tok.line) (some tok.column) (some (st.getLine tok.line)))) ∧
    (∀ f st, currentTok st = none → factor (f + 1) st = .error (.attributeError "type")) ∧
    (∀ name st colonTok typeTok, currentTok st = some colonTok → colonTok.type = "COLON" →
      currentTok (advance st) = some typeTok → typeTok.type ∉ declTypeKinds →
      vacDecl name st = .error (.synErr ("Invalid type: " ++ typeTok.value) none none none)) := by
  refine ⟨fun st type_ tok hcur hne => ?_, fun f st hcur => ?_,
          fun name st colonTok typeTok hcur hct hnext hbad => ?_⟩
  · simp [expect, hcur, hne]
  · simp [factor, hcur]
  · simp [vacDecl, hcur, hct, hnext, hbad]

theorem mini_c4_witness :
    (expect (ParserState.mk [Token.mk "OP" "=" 1 0] [] 0 []) "IDENT" =
      .error (.synErr "Expected IDENT but got \x27=\x27" (some 1) (some 0) (some ""))) ∧
    (factor 5 (ParserState.mk [] [] 0 []) = .error (.attributeError "type")) ∧
    (vacDecl "x" (ParserState.mk [Token.mk "COLON" ":" 1 1, Token.mk "IDENT" "bool" 1 3] [] 0 []) =
      .error (.synErr "Invalid type: bool" none none none)) :=
  ⟨mini_c4_amended.1 (ParserState.mk [Token.mk "OP" "=" 1 0] [] 0 []) "IDENT"
      (Token.mk "OP" "=" 1 0) rfl (by decide),
   mini_c4_amended.2.1 4 (ParserState.mk [] [] 0 []) rfl,
   mini_c4_amended.2.2 "x"
      (ParserState.mk [Token.mk "COLON" ":" 1 1, Token.mk "IDENT" "bool" 1 3] [] 0 [])
      (Token.mk "COLON" ":" 1 1) (Token.mk "IDENT" "bool" 1 3) rfl rfl rfl (by decide)⟩

/-- Claim C5: for a statement `IDENT '=' expression ';'` the parser raises
the syntax error "not declared before assignment" exactly when the name is
absent from the parse-wide `symbols` dict (first conjunct: absent name
errors; second: present name succeeds, with the recorded type filled in);
and that dict is never reset between functions, so a name declared in one
function passes the check in a later function (third conjunct: the
two-function program parses, `x` being declared only in `fn f`). -/
theorem mini_c5 :
    (∀ f name l c l2 c2 rest lines syms, dictGet syms name = none →
      var_assign_or_call (f + 1)
        (ParserState.mk (Token.mk "IDENT" name l c :: Token.mk "OP" "=" l2 c2 :: rest)
          lines 0 syms) =
        .error (.synErr ("Variable \x27" ++ name ++ "\x27 is not declared before assignment")
          (some l) (some c) (some (getLineOf lines l)))) ∧
    (∀ f name ty v l c l2 c2 l3 c3 l4 c4 lines syms, dictGet syms name = some ty →
      var_assign_or_call (f + 6)
        (ParserState.mk [Token.mk "IDENT" name l c, Token.mk "OP" "=" l2 c2,
          Token.mk "NUMBER" v l3 c3, Token.mk "SEMICOLON" ";" l4 c4] lines 0 syms) =
        .ok (.VarAssign name (some ty) (.Number v),
          ParserState.mk [Token.mk "IDENT" name l c, Token.mk "OP" "=" l2 c2,
            Token.mk "NUMBER" v l3 c3, Token.mk "SEMICOLON" ";" l4 c4] lines 4 syms)) ∧
    (lexParse "fn f() \x7b x: int = 1; \x7d fn g() \x7b x = 2; \x7d" =
      .ok (Program.mk
        [Function.mk "f" [] "void" [.VarAssign "x" (some "int") (.Number "1")],
         Function.mk "g" [] "void" [.VarAssign "x" (some "int") (.Number "2")]])) := by
  refine ⟨fun f name l c l2 c2 rest lines syms hund => ?_,
          fun f name ty v l c l2 c2 l3 c3 l4 c4 lines syms hdecl => ?_, rfl⟩
  · simp [var_assign_or_call, expect, currentTok, advance, vacDecl, vacTail, hund,
      ParserState.getLine]
  · simp [var_assign_or_call, expect, currentTok, advance, vacDecl, vacTail, hdecl,
      expression, comparison, comparisonLoop, term_expr, termExprLoop, term, termLoop,
      factor, cmpOps]

theorem mini_c5_witness :
    (var_assign_or_call 1
      (ParserState.mk [Token.mk "IDENT" "q" 1 0, Token.mk "OP" "=" 1 2] [] 0 []) =
      .error (.synErr "Variable \x27q\x27 is not declared before assignment"
        (some 1) (some 0) (some ""))) ∧
    (var_assign_or_call 6
      (ParserState.mk [Token.mk "IDENT" "q" 1 0, Token.mk "OP" "=" 1 2,
        Token.mk "NUMBER" "7" 1 4, Token.mk "SEMICOLON" ";" 1 5] [] 0 [("q", "int")]) =
      .ok (.VarAssign "q" (some "int") (.Number "7"),
        ParserState.mk [Token.mk "IDENT" "q" 1 0, Token.mk "OP" "=" 1 2,
          Token.mk "NUMBER" "7" 1 4, Token.mk "SEMICOLON" ";" 1 5] [] 4 [("q", "int")])) :=
  ⟨mini_c5.1 0 "q" 1 0 1 2 [] [] [] rfl,
   mini_c5.2.1 0 "q" "int" "7" 1 0 1 2 1 4 1 5 [] [("q", "int")] rfl⟩

/-- Claim C6: for a `VarAssign` with a present declared type whose name is
not yet in scope, the analyzer declares the name with the declared type and
never compares it to the initializer value's computed type (first
conjunct, where the value type `t` is arbitrary); and for a name already in
scope the value's computed type must equal the recorded type for the name,
else the type-mismatch error (second conjunct). -/
theorem mini_c6 :
    (∀ name dt value scope er t, dt ≠ "" → dictGet (SymbolTable.symbols scope) name = none →
      visit_expr value scope = .ok t →
      visit_stmt (.VarAssign name (some dt) value) scope er =
        .ok (SymbolTable.mk (dictSet (SymbolTable.symbols scope) name dt))) ∧
    (∀ name dt value scope er t r, dt ≠ "" → dictGet (SymbolTable.symbols scope) name = some r →
      visit_expr value scope = .ok t →
      visit_stmt (.VarAssign name (some dt) value) scope er =
        (if r = t then .ok scope
         else .error ("Type mismatch in assignment to \x27" ++ name ++ "\x27. Expected \x27"
           ++ r ++ "\x27, got \x27" ++ t ++ "\x27"))) := by
  refine ⟨fun name dt value scope er t hdt hnew hval => ?_,
          fun name dt value scope er t r hdt hold hval => ?_⟩
  · simp [visit_stmt, hval, pyTruthyStr, hdt, hnew, SymbolTable.declare]
  · simp only [visit_stmt, hval, pyTruthyStr, hdt, hold, SymbolTable.assign]
    by_cases h : r = t <;> simp [h, hdt, hold]

theorem mini_c6_witness :
    (visit_stmt (.VarAssign "x" (some "int") (.StringLiteral "hi")) (SymbolTable.mk []) "void" =
      .ok (SymbolTable.mk [("x", "int")])) ∧
    (visit_stmt (.VarAssign "x" (some "int") (.Number "5"))
        (SymbolTable.mk [("x", "string")]) "void" =
      .error "Type mismatch in assignment to \x27x\x27. Expected \x27string\x27, got \x27int\x27") :=
  ⟨mini_c6.1 "x" "int" (.StringLiteral "hi") (SymbolTable.mk []) "void" "string"
      (by decide) rfl rfl,
   mini_c6.2 "x" "int" (.Number "5") (SymbolTable.mk [("x", "string")]) "void" "int" "string"
      (by decide) rfl rfl⟩

/-- Claim C7: a `Return` with a value in a `void` function is accepted with
no type comparison (first conjunct, any value type `t`); a missing value in
a non-`void` function fails with the missing-return-value error (second);
and a present value in a non-`void` function must have exactly the declared
return type, else the type-mismatch error (third). -/
theorem mini_c7 :
    (∀ v scope t, visit_expr v scope = .ok t →
      visit_stmt (.ReturnStmt (some v)) scope "void" = .ok scope) ∧
    (∀ scope er, er ≠ "void" →
      visit_stmt (.ReturnStmt none) scope er =
        .error ("Return statement missing value (expected " ++ er ++ ")")) ∧
    (∀ v scope t er, er ≠ "void" → visit_expr v scope = .ok t →
      visit_stmt (.ReturnStmt (some v)) scope er =
        (if t = er then .ok scope
         else .error ("Return type mismatch: expected \x27" ++ er ++ "\x27, got \x27"
           ++ t ++ "\x27"))) := by
  refine ⟨fun v scope t hval => ?_, fun scope er her => ?_, fun v scope t er her hval => ?_⟩
  · simp [visit_stmt, hval]
  · simp [visit_stmt, her]
  · simp only [visit_stmt, hval]
    by_cases h : t = er <;> simp [h, her]

theorem mini_c7_witness :
    (visit_stmt (.ReturnStmt (some (.StringLiteral "hi"))) (SymbolTable.mk []) "void" =
      .ok (SymbolTable.mk [])) ∧
    (visit_stmt (.ReturnStmt none) (SymbolTable.mk []) "int" =
      .error "Return statement missing value (expected int)") ∧
    (visit_stmt (.ReturnStmt (some (.Number "1"))) (SymbolTable.mk []) "bool" =
      .error "Return type mismatch: expected \x27bool\x27, got \x27int\x27") :=
  ⟨mini_c7.1 (.StringLiteral "hi") (SymbolTable.mk []) "string" rfl,
   mini_c7.2.1 (SymbolTable.mk []) "int" (by decide),
   mini_c7.2.2 (.Number "1") (SymbolTable.mk []) "int" "bool" (by decide) rfl⟩

/-- Claim C8: Scenario 5 (`z` declared inside the `if` body, used after the
block) analyzes successfully because `If`/`While` bodies are walked with
the enclosing function's one scope (first conjunct); and the analyzer
processes each function against its own fresh scope, so the whole analysis
succeeds iff each function in isolation does — no name is visible across
functions (second conjunct). -/
theorem mini_c8 :
    (lexParseAnalyze "fn main(): int \x7b if (1) \x7b z: int = 2; \x7d return z; \x7d" =
      .ok ()) ∧
    (∀ funcs : List Function, visitFunctions funcs = .ok () ↔
      ∀ fn ∈ funcs, visit_function fn = .ok ()) := by
  refine ⟨rfl, fun funcs => ?_⟩
  induction funcs with
  | nil => simp [visitFunctions]
  | cons g rest ih =>
    simp only [visitFunctions]
    cases h : visit_function g with
    | error er => simp [h]
    | ok u => cases u; simp [h, ih]

theorem mini_c8_witness :
    visitFunctions [Function.mk "m" [] "void" []] = .ok () :=
  (mini_c8.2 [Function.mk "m" [] "void" []]).mpr
    (by intro fn hfn; rcases List.mem_singleton.mp hfn with rfl; rfl)

/-- Claim C9 counterexample: the claim says every program with `true` in an
expression fails to parse with "unexpected token in expression"; in fact
`true` is not in `KEYWORDS`, lexes as `IDENT`, and `factor` accepts it as a
variable reference, so this program parses successfully. -/
theorem mini_c9_counterexample :
    lexParse "fn main(): int \x7b return true; \x7d" =
      .ok (Program.mk [Function.mk "main" [] "int"
        [.ReturnStmt (some (.Var "true"))]]) := rfl

/-- Claim C9 (amended): `true` is lexed as an `IDENT` token, not a keyword,
so inside an expression it parses as a variable reference; the program is
rejected only later, by the semantic analyzer, as an undeclared
variable. -/
theorem mini_c9_amended :
    (lex "true" = .ok [Token.mk "IDENT" "true" 1 0]) ∧
    (lexParseAnalyze "fn main(): int \x7b return true; \x7d" =
      .error (.semErr "Variable \x27true\x27 not declared.")) :=
  ⟨rfl, rfl⟩

/-- Claim C10: every `VarAssign` node in any program produced by a
successful parse carries a present declared-type field (for a plain
assignment the parser fills it from its parse-wide `symbols` dict), so the
analyzer's declared-type-absent branch is never reached on parser-produced
ASTs. -/
theorem mini_c10 (fuel : Nat) (tokens : List Token) (source : String) (prog : Program)
    (h : parseWithFuel fuel tokens source = .ok prog) : progTyped prog := by
  unfold parseWithFuel at h
  cases hp : parseLoop fuel [] (ParserState.mk tokens (pySplitlines source) 0 []) with
  | error e => rw [hp] at h; exact Except.noConfusion h
  | ok p =>
    obtain ⟨prog0, st0⟩ := p
    rw [hp] at h
    injection h with h1
    subst h1
    exact parseLoop_typed _ _ _ _ _ hp (by simp)

theorem mini_c10_witness :
    (parseWithFuel 50
      [Token.mk "FN" "fn" 1 0, Token.mk "IDENT" "m" 1 3, Token.mk "LPAREN" "(" 1 5,
       Token.mk "RPAREN" ")" 1 6, Token.mk "LBRACE" "\x7b" 1 8, Token.mk "IDENT" "x" 1 10,
       Token.mk "COLON" ":" 1 11, Token.mk "INT" "int" 1 13, Token.mk "OP" "=" 1 17,
       Token.mk "NUMBER" "1" 1 19, Token.mk "SEMICOLON" ";" 1 20,
       Token.mk "RBRACE" "\x7d" 1 22] "" =
      .ok (Program.mk [Function.mk "m" [] "void"
        [.VarAssign "x" (some "int") (.Number "1")]])) ∧
    progTyped (Program.mk [Function.mk "m" [] "void"
      [.VarAssign "x" (some "int") (.Number "1")]]) :=
  ⟨rfl, mini_c10 50
    [Token.mk "FN" "fn" 1 0, Token.mk "IDENT" "m" 1 3, Token.mk "LPAREN" "(" 1 5,
     Token.mk "RPAREN" ")" 1 6, Token.mk "LBRACE" "\x7b" 1 8, Token.mk "IDENT" "x" 1 10,
     Token.mk "COLON" ":" 1 11, Token.mk "INT" "int" 1 13, Token.mk "OP" "=" 1 17,
     Token.mk "NUMBER" "1" 1 19, Token.mk "SEMICOLON" ";" 1 20,
     Token.mk "RBRACE" "\x7d" 1 22] ""
    (Program.mk [Function.mk "m" [] "void" [.VarAssign "x" (some "int") (.Number "1")]]) rfl⟩

end MiniLang
